import Mathlib

/-!
# Verification of the autoscaler resource wrapper and operation-polling design

A shallow embedding of the autoscaler resource wrapper (`src/autoscaler.ts`)
over the generic resource/operation abstraction described in the design
document: resource handles scoped under a zone, mutating calls returning
long-running operation handles, and the polling loop that drives an
operation to its terminal state.

JSON objects are modelled as association lists of string keys and string
values; transport interactions are modelled by passing the transport outcome
explicitly to the pure function that mirrors the source method body.
-/

set_option autoImplicit false

namespace Compute1

/-- A JSON-like object: an association list of string fields.  JavaScript
objects have unique keys; reading takes the first occurrence. -/
abbrev Obj := List (String × String)

/-- Read a field of an object (first occurrence), `none` when absent. -/
def getKey : Obj → String → Option String
  | [], _ => none
  | (k, v) :: rest, key => if k = key then some v else getKey rest key

/-- Property assignment `o[key] = val`: overwrite the existing field in
place, or append the field when absent. -/
def setKey : Obj → String → String → Obj
  | [], key, val => [(key, val)]
  | (k, v) :: rest, key, val =>
    if k = key then (key, val) :: rest else (k, v) :: setKey rest key val

/-- A transport-level failure (network, auth, HTTP error status).  `code`
carries the HTTP status semantics: 404 = not-found, 409 = conflict. -/
structure RequestError where
  code : Nat
  message : String
deriving DecidableEq, Repr

/-- The root service handle; carries the scope-level poll interval
configuration (milliseconds). -/
structure ComputeClient where
  pollIntervalMs : Nat
deriving DecidableEq, Repr

/-- The parent container of an autoscaler. -/
structure Zone where
  name : String
  compute : ComputeClient
deriving DecidableEq, Repr

/-- An Operation handle: provider-assigned id (mirrors `resp.name`, which
may be absent), parent zone reference, and locally cached metadata. -/
structure Operation where
  zoneName : String
  name : Option String
  metadata : Option Obj
deriving DecidableEq, Repr

/-- `zone.operation(name)`: construct an Operation handle scoped under the
zone from a provider-assigned id; no metadata is cached yet. -/
def Zone.operation (z : Zone) (name : Option String) : Operation :=
  { zoneName := z.name, name := name, metadata := none }

/-- An Autoscaler resource handle: its own name plus the parent zone. -/
structure Autoscaler where
  name : String
  zone : Zone
deriving DecidableEq, Repr

/-- `zone.autoscaler(name)`: the handle the constructor produces. -/
def Autoscaler.ofZone (zone : Zone) (name : String) : Autoscaler :=
  { name := name, zone := zone }

/-- The create method wired into the handle by the constructor; the source
binds `zone.createAutoscaler` to the zone instance. -/
inductive CreateMethodRef
  | zoneCreateAutoscaler (zone : Zone)
deriving DecidableEq, Repr

/-- The configuration object the `Autoscaler` constructor hands to the
`ServiceObject` base class (`super({...})` in the source). -/
structure ServiceObjectConfig where
  parent : Zone
  baseUrl : String
  id : String
  createMethod : CreateMethodRef
  pollIntervalMs : Nat
deriving DecidableEq, Repr

/-- The `super({...})` argument built by the `Autoscaler` constructor. -/
def Autoscaler.constructorConfig (zone : Zone) (name : String) :
    ServiceObjectConfig :=
  { parent := zone
    baseUrl := "/autoscalers"
    id := name
    createMethod := .zoneCreateAutoscaler zone
    pollIntervalMs := zone.compute.pollIntervalMs }

/-- A request handed to the transport: method, uri, query string, body. -/
structure ComputeRequest where
  method : String
  uri : String
  qs : List (String × String)
  json : Option Obj
deriving DecidableEq, Repr

/-- What the transport reports back to a request callback: either an
error (with a possibly absent response body) or a response body. -/
inductive TransportOutcome
  | failure (err : RequestError) (resp : Option Obj)
  | success (resp : Obj)
deriving DecidableEq, Repr

/-- The three arguments an operation callback receives:
`callback(err, operation, apiResponse)`. -/
structure OperationCallbackArgs where
  err : Option RequestError
  operation : Option Operation
  apiResponse : Option Obj
deriving DecidableEq, Repr

/-- The request `delete()` issues: `{method: DELETE, uri: empty}`. -/
def Autoscaler.deleteRequest (_a : Autoscaler) : ComputeRequest :=
  { method := "DELETE", uri := "", qs := [], json := none }

/-- The callback half of `delete()`: on transport error, forward the error
with a null operation; on success, build an Operation handle through the
parent zone from `resp.name` and cache the raw response as its metadata. -/
def Autoscaler.deleteHandle (a : Autoscaler) (out : TransportOutcome) :
    OperationCallbackArgs :=
  match out with
  | .failure e r => { err := some e, operation := none, apiResponse := r }
  | .success resp =>
    { err := none
      operation := some
        { a.zone.operation (getKey resp "name") with metadata := some resp }
      apiResponse := some resp }

/-- The body `setMetadata` transmits: the caller's patch (empty object when
omitted) with `json.name = this.name` and `json.zone = this.zone.name`
assigned over it. -/
def Autoscaler.setMetadataPayload (a : Autoscaler) (metadata : Option Obj) :
    Obj :=
  setKey (setKey (metadata.getD []) "name" a.name) "zone" a.zone.name

/-- The request `setMetadata` issues through the zone:
`{method: PATCH, uri: /autoscalers, qs: {autoscaler: name}, json}`. -/
def Autoscaler.setMetadataRequest (a : Autoscaler) (metadata : Option Obj) :
    ComputeRequest :=
  { method := "PATCH"
    uri := "/autoscalers"
    qs := [("autoscaler", a.name)]
    json := some (a.setMetadataPayload metadata) }

/-- The callback half of `setMetadata`: identical shape to `delete` — on
error forward it with a null operation, on success wrap `resp.name` in an
Operation handle via the zone and cache the response. -/
def Autoscaler.setMetadataHandle (a : Autoscaler) (out : TransportOutcome) :
    OperationCallbackArgs :=
  match out with
  | .failure e r => { err := some e, operation := none, apiResponse := r }
  | .success resp =>
    { err := none
      operation := some
        { a.zone.operation (getKey resp "name") with metadata := some resp }
      apiResponse := some resp }

/-- Modelled from the spec: the `exists` method is supplied by the shared
`ServiceObject` base class (only the `exists: true` declaration is in this
repository's source).  The spec: it performs a `get` and translates a
not-found response (HTTP 404) into `false`; a successful fetch means
`true`; any other transport failure still propagates. -/
def existsFromGet (fetch : Except RequestError Obj) :
    Except RequestError Bool :=
  match fetch with
  | .ok _ => .ok true
  | .error e => if e.code = 404 then .ok false else .error e

/-- Options accepted by `get`: the auto-create flag plus the caller-supplied
create configuration carried in the same options object. -/
structure GetOptions where
  autoCreate : Bool
  config : Obj
deriving DecidableEq, Repr

/-- A create call observed during `get`: which bound method was invoked and
with which configuration. -/
structure CreateCall where
  method : CreateMethodRef
  config : Obj
deriving DecidableEq, Repr

/-- Modelled from the spec: the `get` method is supplied by the shared
`ServiceObject` base class (only the `get: true` declaration is in this
repository's source).  The spec: fetch the metadata; when the resource is
absent (404) and `options.autoCreate` is set, transparently call the
handle's create method with the caller-supplied config and return the
newly created handle instead of failing; otherwise the outcome of the
fetch stands.  The list records every create call made. -/
def getOrCreate (cfg : ServiceObjectConfig) (fetch : Except RequestError Obj)
    (opts : GetOptions) (createResult : Except RequestError Obj) :
    List CreateCall × Except RequestError Obj :=
  match fetch with
  | .ok m => ([], .ok m)
  | .error e =>
    if e.code = 404 ∧ opts.autoCreate then
      ([{ method := cfg.createMethod, config := opts.config }], createResult)
    else ([], .error e)

/-- The outcome a promise-style caller observes. -/
inductive PromiseOutcome (α : Type)
  | resolved (value : α)
  | rejected (err : RequestError)
deriving DecidableEq, Repr

/-- Modelled from the spec: `promisifyAll` (an external helper applied to
the class) derives the promise-style surface from the callback surface —
when the callback would receive an error the promise rejects with that
error, otherwise it resolves with the callback's success arguments. -/
def promisify (args : OperationCallbackArgs) :
    PromiseOutcome (Option Operation × Option Obj) :=
  match args.err with
  | some e => .rejected e
  | none => .resolved (args.operation, args.apiResponse)

/-- Operation status enumeration: PENDING, RUNNING, DONE. -/
inductive OpStatus
  | PENDING
  | RUNNING
  | DONE
deriving DecidableEq, Repr

/-- One structured per-sub-operation failure record. -/
structure ApiError where
  code : String
  message : String
deriving DecidableEq, Repr

/-- The provider-side view of an operation at some instant: status plus the
ordered per-item error list (authoritative once status is DONE). -/
structure OperationMeta where
  status : OpStatus
  errors : List ApiError
deriving DecidableEq, Repr

/-- Wait configuration: poll interval and maximum wait duration (ms). -/
structure WaitConfig where
  pollIntervalMs : Nat
  maxDurationMs : Nat
deriving DecidableEq, Repr

/-- How a wait ends when it does not succeed. -/
inductive WaitError
  | operationError (errors : List ApiError)
  | timeoutError (elapsedMs : Nat)
deriving DecidableEq, Repr

/-- The terminal outcome a waiter observes. -/
inductive WaitResult
  | success (op : OperationMeta)
  | failure (e : WaitError)
deriving DecidableEq, Repr

/-- A provider interaction the polling loop could issue.  The loop only
ever fetches status; the cancel constructor exists so that its absence
from every transcript is a provable fact, matching the rule that local
abandonment never cancels provider work. -/
inductive ProviderCall
  | fetchStatus (atMs : Nat)
  | cancelOperation (atMs : Nat)
deriving DecidableEq, Repr

/-- Modelled from the spec: the polling loop of the Operation handle (the
Operation class is not among this repository's source files here).  Each
iteration (a) suspends for the poll interval — logical time advances by
exactly the interval, (b) fails with a timeout once the maximum duration
has elapsed, (c) otherwise fetches the status at the current instant, and
(d) on DONE resolves as success when the error list is empty and as an
operation error carrying that list otherwise.  `fuel` bounds the
recursion; `none` means fuel ran out before the wait settled.  The first
component lists every provider interaction issued. -/
def pollLoop (cfg : WaitConfig) (statusAt : Nat → OperationMeta) :
    Nat → Nat → List ProviderCall × Option WaitResult
  | 0, _ => ([], none)
  | fuel + 1, elapsed =>
    let t := elapsed + cfg.pollIntervalMs
    if cfg.maxDurationMs < t then
      ([], some (.failure (.timeoutError t)))
    else
      let op := statusAt t
      match op.status with
      | .DONE =>
        ([.fetchStatus t],
          some (if op.errors = [] then .success op
            else .failure (.operationError op.errors)))
      | _ =>
        let rest := pollLoop cfg statusAt fuel t
        (.fetchStatus t :: rest.1, rest.2)

theorem pollLoop_step_timeout (cfg : WaitConfig) (statusAt : Nat → OperationMeta)
    (fuel elapsed : Nat)
    (hgt : cfg.maxDurationMs < elapsed + cfg.pollIntervalMs) :
    pollLoop cfg statusAt (fuel + 1) elapsed =
      ([], some (.failure (.timeoutError (elapsed + cfg.pollIntervalMs)))) := by
  simp [pollLoop, hgt]

theorem pollLoop_step_notDone (cfg : WaitConfig) (statusAt : Nat → OperationMeta)
    (fuel elapsed : Nat)
    (hle : ¬ cfg.maxDurationMs < elapsed + cfg.pollIntervalMs)
    (hnd : (statusAt (elapsed + cfg.pollIntervalMs)).status ≠ .DONE) :
    pollLoop cfg statusAt (fuel + 1) elapsed =
      (.fetchStatus (elapsed + cfg.pollIntervalMs) ::
          (pollLoop cfg statusAt fuel (elapsed + cfg.pollIntervalMs)).1,
        (pollLoop cfg statusAt fuel (elapsed + cfg.pollIntervalMs)).2) := by
  cases hs : (statusAt (elapsed + cfg.pollIntervalMs)).status with
  | DONE => exact absurd hs hnd
  | PENDING => simp [pollLoop, hle, hs]
  | RUNNING => simp [pollLoop, hle, hs]

theorem getKey_setKey_same (o : Obj) (k v : String) :
    getKey (setKey o k v) k = some v := by
  induction o with
  | nil => simp [setKey, getKey]
  | cons p rest ih =>
    by_cases h : p.1 = k
    · simp [setKey, h, getKey]
    · simp [setKey, h, getKey, ih]

theorem getKey_setKey_other (o : Obj) (k v q : String) (hq : q ≠ k) :
    getKey (setKey o k v) q = getKey o q := by
  induction o with
  | nil => simp [setKey, getKey, Ne.symm hq]
  | cons p rest ih =>
    by_cases h : p.1 = k
    · simp [setKey, h, getKey, Ne.symm hq]
    · simp [setKey, h, getKey, ih]

/-- Claim C1: for every Operation that has reached DONE, the wait resolves
as success exactly when the errors list is empty, and otherwise fails with
an operation error carrying that same errors list verbatim — reaching the
terminal state alone does not imply success. -/
theorem done_wait_outcome (cfg : WaitConfig) (op : OperationMeta)
    (hdone : op.status = .DONE)
    (hiv : cfg.pollIntervalMs ≤ cfg.maxDurationMs) :
    ((pollLoop cfg (fun _ => op) 1 0).2 = some (.success op) ↔
      op.errors = []) ∧
    (op.errors ≠ [] →
      (pollLoop cfg (fun _ => op) 1 0).2 =
        some (.failure (.operationError op.errors))) := by
  have hle : ¬ cfg.maxDurationMs < cfg.pollIntervalMs := by omega
  constructor
  · constructor
    · intro hres
      by_cases he : op.errors = []
      · exact he
      · simp [pollLoop, hle, hdone, he] at hres
    · intro he
      simp [pollLoop, hle, hdone, he]
  · intro hne
    simp [pollLoop, hle, hdone, hne]

/-- Witness for C1: a DONE operation carrying one error record makes the
wait fail with an operation error carrying that same record. -/
theorem done_wait_outcome_witness :
    (pollLoop ⟨100, 300⟩
        (fun _ => ⟨.DONE, [⟨"CONDITION_NOT_MET", "boom"⟩]⟩) 1 0).2 =
      some (.failure (.operationError [⟨"CONDITION_NOT_MET", "boom"⟩])) :=
  (done_wait_outcome ⟨100, 300⟩ ⟨.DONE, [⟨"CONDITION_NOT_MET", "boom"⟩]⟩
    rfl (by norm_num)).2 (by simp)

/-- Claim C2: for every metadata patch, including the omitted one, the JSON
body `setMetadata` transmits carries `name` equal to the handle's own name
and `zone` equal to the parent zone's name. -/
theorem setMetadata_payload_names (a : Autoscaler) (metadata : Option Obj) :
    (a.setMetadataRequest metadata).json =
      some (a.setMetadataPayload metadata) ∧
    getKey (a.setMetadataPayload metadata) "name" = some a.name ∧
    getKey (a.setMetadataPayload metadata) "zone" = some a.zone.name := by
  refine ⟨rfl, ?_, ?_⟩
  · unfold Autoscaler.setMetadataPayload
    rw [getKey_setKey_other _ _ _ _ (by decide), getKey_setKey_same]
  · unfold Autoscaler.setMetadataPayload
    exact getKey_setKey_same _ _ _

/-- Claim C3: `exists` reports `false` exactly when the fetch yields a
not-found (404) failure, reports `true` when the fetch succeeds, and
forwards every other error class unchanged. -/
theorem exists_translates_not_found (fetch : Except RequestError Obj) :
    (existsFromGet fetch = .ok false ↔
      ∃ e, fetch = .error e ∧ e.code = 404) ∧
    (∀ m, fetch = .ok m → existsFromGet fetch = .ok true) ∧
    (∀ e, fetch = .error e → e.code ≠ 404 →
      existsFromGet fetch = .error e) := by
  refine ⟨⟨?_, ?_⟩, ?_, ?_⟩
  · intro hres
    cases fetch with
    | ok m => simp [existsFromGet] at hres
    | error e =>
      refine ⟨e, rfl, ?_⟩
      by_contra hc
      simp [existsFromGet, hc] at hres
  · rintro ⟨e, rfl, hc⟩
    simp [existsFromGet, hc]
  · rintro m rfl
    rfl
  · rintro e rfl hc
    simp [existsFromGet, hc]

/-- Witness for C3: a 500-class failure of the underlying fetch propagates
unchanged out of `exists` instead of becoming a boolean. -/
theorem exists_translates_not_found_witness :
    existsFromGet (.error ⟨500, "server error"⟩) =
      .error ⟨500, "server error"⟩ :=
  (exists_translates_not_found (.error ⟨500, "server error"⟩)).2.2
    ⟨500, "server error"⟩ rfl (by norm_num)

/-- Claim C4: on every successful transport response, `delete` hands back
an Operation handle built through the parent zone from the
provider-assigned id `resp.name`, with the raw response cached as the
operation's metadata, and no error. -/
theorem delete_returns_operation_handle (a : Autoscaler) (resp : Obj) :
    a.deleteRequest = { method := "DELETE", uri := "", qs := [], json := none } ∧
    (a.deleteHandle (.success resp)).err = none ∧
    (a.deleteHandle (.success resp)).apiResponse = some resp ∧
    (a.deleteHandle (.success resp)).operation =
      some { a.zone.operation (getKey resp "name") with
        metadata := some resp } :=
  ⟨rfl, rfl, rfl, rfl⟩

/-- Claim C5: every transport error during `delete` or `setMetadata` is
surfaced unchanged to the immediate caller: the callback receives exactly
that error and a null operation. -/
theorem transport_error_propagates (a : Autoscaler) (e : RequestError)
    (r : Option Obj) :
    a.deleteHandle (.failure e r) =
      { err := some e, operation := none, apiResponse := r } ∧
    a.setMetadataHandle (.failure e r) =
      { err := some e, operation := none, apiResponse := r } :=
  ⟨rfl, rfl⟩

/-- Claim C6: on a missing resource (404 fetch) with `autoCreate` set,
`get` makes exactly one create call, routed through the zone's
`createAutoscaler` method that the constructor bound as the handle's
create method, with the caller-supplied config, and returns the create
outcome instead of the not-found failure. -/
theorem get_auto_create_once (zone : Zone) (name : String)
    (e : RequestError) (opts : GetOptions)
    (createResult : Except RequestError Obj)
    (h404 : e.code = 404) (hauto : opts.autoCreate = true) :
    getOrCreate (Autoscaler.constructorConfig zone name) (.error e) opts
        createResult =
      ([{ method := .zoneCreateAutoscaler zone, config := opts.config }],
        createResult) ∧
    (Autoscaler.constructorConfig zone name).createMethod =
      .zoneCreateAutoscaler zone := by
  refine ⟨?_, rfl⟩
  simp [getOrCreate, h404, hauto, Autoscaler.constructorConfig]

/-- Witness for C6: a concrete missing autoscaler fetched with autoCreate
produces exactly one create call with the caller's config and returns the
created resource. -/
theorem get_auto_create_once_witness :
    getOrCreate
        (Autoscaler.constructorConfig ⟨"us-central1-a", ⟨500⟩⟩ "as1")
        (.error ⟨404, "not found"⟩) ⟨true, [("cpu", "80")]⟩
        (.ok [("name", "as1")]) =
      ([{ method := .zoneCreateAutoscaler ⟨"us-central1-a", ⟨500⟩⟩,
          config := [("cpu", "80")] }], .ok [("name", "as1")]) ∧
    (Autoscaler.constructorConfig ⟨"us-central1-a", ⟨500⟩⟩
        "as1").createMethod =
      .zoneCreateAutoscaler ⟨"us-central1-a", ⟨500⟩⟩ :=
  get_auto_create_once ⟨"us-central1-a", ⟨500⟩⟩ "as1" ⟨404, "not found"⟩
    ⟨true, [("cpu", "80")]⟩ (.ok [("name", "as1")]) rfl rfl

/-- Claim C7: for each asynchronous method and every transport outcome,
the promise-style surface derived by promisification exposes the same
content as the callback surface: it rejects with exactly the callback's
error on failure and resolves with exactly the callback's operation and
response on success. -/
theorem callback_promise_agree (a : Autoscaler) (e : RequestError)
    (r : Option Obj) (resp : Obj) :
    promisify (a.deleteHandle (.failure e r)) = .rejected e ∧
    (a.deleteHandle (.failure e r)).err = some e ∧
    promisify (a.deleteHandle (.success resp)) =
      .resolved ((a.deleteHandle (.success resp)).operation,
        (a.deleteHandle (.success resp)).apiResponse) ∧
    promisify (a.setMetadataHandle (.failure e r)) = .rejected e ∧
    (a.setMetadataHandle (.failure e r)).err = some e ∧
    promisify (a.setMetadataHandle (.success resp)) =
      .resolved ((a.setMetadataHandle (.success resp)).operation,
        (a.setMetadataHandle (.success resp)).apiResponse) :=
  ⟨rfl, rfl, rfl, rfl, rfl, rfl⟩

/-- Claim C8: the constructor hands the parent scope's poll interval — a
numeric value in milliseconds — to the base class as the handle's poll
interval configuration. -/
theorem constructor_poll_interval (zone : Zone) (name : String) :
    (Autoscaler.constructorConfig zone name).pollIntervalMs =
      zone.compute.pollIntervalMs :=
  rfl

/-- Claim C9: with a 100 ms poll interval and a 300 ms maximum duration,
waiting on an operation that never reaches DONE fails with a timeout whose
elapsed time lies within 300–400 ms, and the loop issues only status
fetches — never a cancellation of the provider-side operation. -/
theorem never_done_times_out (statusAt : Nat → OperationMeta)
    (h : ∀ t, (statusAt t).status ≠ .DONE) :
    ∃ e, (pollLoop ⟨100, 300⟩ statusAt 10 0).2 =
        some (.failure (.timeoutError e)) ∧
      300 ≤ e ∧ e ≤ 400 ∧
      ∀ c ∈ (pollLoop ⟨100, 300⟩ statusAt 10 0).1,
        ∃ t, c = .fetchStatus t := by
  have key : pollLoop ⟨100, 300⟩ statusAt 10 0 =
      ([.fetchStatus 100, .fetchStatus 200, .fetchStatus 300],
        some (.failure (.timeoutError 400))) := by
    have s1 := pollLoop_step_notDone ⟨100, 300⟩ statusAt 9 0
      (by norm_num) (h 100)
    have s2 := pollLoop_step_notDone ⟨100, 300⟩ statusAt 8 100
      (by norm_num) (h 200)
    have s3 := pollLoop_step_notDone ⟨100, 300⟩ statusAt 7 200
      (by norm_num) (h 300)
    have s4 := pollLoop_step_timeout ⟨100, 300⟩ statusAt 6 300
      (by norm_num)
    norm_num at s1 s2 s3 s4
    rw [s1, s2, s3, s4]
  refine ⟨400, ?_, by norm_num, by norm_num, ?_⟩
  · rw [key]
  · intro c hc
    rw [key] at hc
    simp only [List.mem_cons, List.not_mem_nil, or_false] at hc
    rcases hc with rfl | rfl | rfl
    · exact ⟨100, rfl⟩
    · exact ⟨200, rfl⟩
    · exact ⟨300, rfl⟩

/-- Witness for C9: an operation that stays PENDING forever times out at
400 ms under a 100 ms interval and a 300 ms maximum duration, and the loop
only ever fetched status. -/
theorem never_done_times_out_witness :
    ∃ e, (pollLoop ⟨100, 300⟩ (fun _ => ⟨.PENDING, []⟩) 10 0).2 =
        some (.failure (.timeoutError e)) ∧
      300 ≤ e ∧ e ≤ 400 ∧
      ∀ c ∈ (pollLoop ⟨100, 300⟩ (fun _ => ⟨.PENDING, []⟩) 10 0).1,
        ∃ t, c = .fetchStatus t :=
  never_done_times_out (fun _ => ⟨.PENDING, []⟩) (fun _ => by simp)

/-- Claim C10: the transmitted payload is the caller's patch with its name
field set to the handle's name and its zone field set to the parent zone's
name — overwriting any caller-supplied values — while every other field of
the patch is carried through unchanged. -/
theorem setMetadata_payload_frame (a : Autoscaler) (metadata : Option Obj)
    (k : String) (hn : k ≠ "name") (hz : k ≠ "zone") :
    getKey (a.setMetadataPayload metadata) "name" = some a.name ∧
    getKey (a.setMetadataPayload metadata) "zone" = some a.zone.name ∧
    getKey (a.setMetadataPayload metadata) k =
      getKey (metadata.getD []) k := by
  refine ⟨?_, ?_, ?_⟩
  · unfold Autoscaler.setMetadataPayload
    rw [getKey_setKey_other _ _ _ _ (by decide), getKey_setKey_same]
  · unfold Autoscaler.setMetadataPayload
    exact getKey_setKey_same _ _ _
  · unfold Autoscaler.setMetadataPayload
    rw [getKey_setKey_other _ _ _ _ hz, getKey_setKey_other _ _ _ _ hn]

/-- Witness for C10: on a patch carrying a stale name and an extra field,
the payload overwrites the name with the handle's, adds the zone, and
carries the extra field through unchanged. -/
theorem setMetadata_payload_frame_witness :
    getKey ((Autoscaler.ofZone ⟨"us-central1-a", ⟨500⟩⟩
        "as1").setMetadataPayload (some [("name", "stale"), ("cpu", "80")]))
        "name" = some "as1" ∧
    getKey ((Autoscaler.ofZone ⟨"us-central1-a", ⟨500⟩⟩
        "as1").setMetadataPayload (some [("name", "stale"), ("cpu", "80")]))
        "zone" = some "us-central1-a" ∧
    getKey ((Autoscaler.ofZone ⟨"us-central1-a", ⟨500⟩⟩
        "as1").setMetadataPayload (some [("name", "stale"), ("cpu", "80")]))
        "cpu" =
      getKey ((some [("name", "stale"), ("cpu", "80")] :
        Option Obj).getD []) "cpu" :=
  setMetadata_payload_frame (Autoscaler.ofZone ⟨"us-central1-a", ⟨500⟩⟩ "as1")
    (some [("name", "stale"), ("cpu", "80")]) "cpu" (by decide) (by decide)

end Compute1
